import Mathlib

/-!
Shallow embedding of `spring_cloud_client.go` (package `springcloud`): a
client that resolves logical service names to endpoints, selects one by
per-service round-robin, builds the target URL, and wraps the dispatcher
with JSON/XML codec convenience methods.

External collaborators (the discovery backend, the HTTP transport, and the
stdlib JSON/XML codecs) are modelled as parameters; the rotation state
(`rrIndices`, a concurrent map of `atomic.Uint32` counters) is modelled as
explicit state passed through each call, with `uint32` arithmetic written
as `Nat` arithmetic modulo `2 ^ 32`.
-/

namespace SpringCloud

/-- Go constant `HeaderAccept = "Accept"`. -/
def HeaderAccept : String := "Accept"

/-- Go constant `HeaderContentType = "Content-Type"`. -/
def HeaderContentType : String := "Content-Type"

/-- Go constant `MediaJson = "application/json"`. -/
def MediaJson : String := "application/json"

/-- Go constant `MediaXml = "application/xml"`. -/
def MediaXml : String := "application/xml"

/-- `2 ^ 32`, the modulus of Go `uint32` arithmetic (`atomic.Uint32`,
`uint32(len(endpoints))`). -/
def U32 : Nat := 4294967296

/-- Modelled from the spec: "Endpoint: a resolved network location —
host/address and port." The `Endpoint` struct is declared outside the
provided source file; `spring_cloud_client.go` reads its `Address` and
`Port` fields (`endpoint.Address`, `endpoint.Port`). -/
structure Endpoint where
  Address : String
  Port : Nat
deriving DecidableEq, Repr

/-- Valid byte of a MIME header field name, as in Go
`net/textproto.validHeaderFieldByte`: digits, letters, and the punctuation
set with byte codes 33, 35, 36, 37, 38, 39, 42, 43, 45, 46, 94, 95, 96,
124, 126. -/
def validHeaderFieldChar (c : Char) : Bool :=
  let n := c.toNat
  (48 ≤ n && n ≤ 57) || (65 ≤ n && n ≤ 90) || (97 ≤ n && n ≤ 122) ||
  [33, 35, 36, 37, 38, 39, 42, 43, 45, 46, 94, 95, 96, 124, 126].contains n

/-- Casing pass of Go `net/textproto.canonicalMIMEHeaderKey`: uppercase a
letter at the start or after a hyphen, lowercase every other letter; the
flag tracks whether the previous output character was a hyphen (initially
true). -/
def canonChars : Bool → List Char → List Char
  | _, [] => []
  | upper, c :: rest =>
    let c2 := if upper && c.isLower then c.toUpper
              else if !upper && c.isUpper then c.toLower
              else c
    c2 :: canonChars (c2 == '-') rest

/-- Go `net/textproto.CanonicalMIMEHeaderKey`: if any byte is not a valid
header-field byte the key is returned unchanged, otherwise it is
canonicalised by the casing pass. -/
def canonicalMIMEHeaderKey (s : String) : String :=
  if s.data.all validHeaderFieldChar then String.mk (canonChars true s.data) else s

/-- Go `textproto.MIMEHeader`: a map from header key to list of values,
modelled as an association list (first match wins on lookup, matching Go
map semantics for the operations used here). -/
abbrev MIMEHeader := List (String × List String)

/-- Exact-key lookup in an association list (Go map indexing `m[k]`). -/
def assocLookup {β : Type} : List (String × β) → String → Option β
  | [], _ => none
  | (k2, v) :: t, k => if k2 = k then some v else assocLookup t k

/-- Exact-key update in an association list (Go map assignment
`m[k] = v`): replaces the first binding of `k`, or appends one. -/
def assocSet {β : Type} : List (String × β) → String → β → List (String × β)
  | [], k, v => [(k, v)]
  | (k2, v2) :: t, k, v => if k2 = k then (k, v) :: t else (k2, v2) :: assocSet t k v

/-- Go `textproto.MIMEHeader.Get`: looks up the canonical form of the key
and returns the first value, or `""` when the key is absent or has no
values. -/
def mimeGet (h : MIMEHeader) (key : String) : String :=
  match assocLookup h (canonicalMIMEHeaderKey key) with
  | some (v :: _) => v
  | _ => ""

/-- Go `textproto.MIMEHeader.Set`: stores the single value under the
canonical form of the key, replacing any previous values. -/
def mimeSet (h : MIMEHeader) (key value : String) : MIMEHeader :=
  assocSet h (canonicalMIMEHeaderKey key) [value]

/-- Header defaulting shared by `JsonRequest` (lines 114-124, with
`media = MediaJson`) and `XmlRequest` (lines 180-190, with
`media = MediaXml`): a `nil` headers argument (`none`) is replaced by a
fresh empty map, then `Accept` and `Content-Type` are set to the codec
media type when `Get` returns `""`. -/
def applyDefaultHeaders (media : String) (headers : Option MIMEHeader) : MIMEHeader :=
  let h0 := headers.getD []
  let h1 := if mimeGet h0 HeaderAccept = "" then mimeSet h0 HeaderAccept media else h0
  if mimeGet h1 HeaderContentType = "" then mimeSet h1 HeaderContentType media else h1

/-- The `rrIndices syncx.Map[string, *atomic.Uint32]` field of the client, modelled
as an association list from service name to the current counter value
(an integer `< 2 ^ 32`). `LoadOrStore` of a fresh zero counter followed by
an in-place atomic `Add(1)` is modelled by reading the entry (default 0)
and storing the incremented value. -/
abbrev RRState := List (String × Nat)

/-- Go `(*Client).getNextEndpoint` (lines 274-288): returns
`(nil, false)` on an empty list; otherwise load-or-stores the per-service
counter, increments it atomically (`index := rrIndex.Add(1)`, `uint32`
wrap-around), and selects `endpoints[(index - 1) % uint32(len(endpoints))]`.
`index - 1` in `uint32` is `(index + 2 ^ 32 - 1) % 2 ^ 32`, and
`uint32(len(endpoints))` is `endpoints.length % 2 ^ 32` (faithful whenever
the length is not a positive multiple of `2 ^ 32`; at such a length Go
would divide by zero, a size unreachable in practice). -/
def getNextEndpoint (st : RRState) (serviceName : String) (endpoints : List Endpoint) :
    (Option Endpoint × Bool) × RRState :=
  if endpoints.length = 0 then ((none, false), st)
  else
    let cur := (assocLookup st serviceName).getD 0
    let index := (cur + 1) % U32
    let st2 := assocSet st serviceName index
    let idx := ((index + U32 - 1) % U32) % (endpoints.length % U32)
    ((endpoints[idx]?, true), st2)

/-- Error values produced by the client. `noAvailableEndpoint` and
`httpStatus` are modelled from the spec: `ErrNoAvailableEndpoint` is "a
dedicated no-endpoint error distinct from directory failures", and
`NewHttpStatusError(code, text)` builds "a status error carrying the
numeric code and the raw body text" (both are declared outside the
provided source file). `discovery` is an error returned verbatim by
`Discovery.GetEndpoints`; `errorf` is a `fmt.Errorf`-wrapped error. -/
inductive GoErr where
  | discovery (msg : String)
  | noAvailableEndpoint
  | errorf (msg : String)
  | httpStatus (code : Nat) (body : String)
deriving DecidableEq, Repr

instance {ε α : Type} [DecidableEq ε] [DecidableEq α] : DecidableEq (Except ε α) :=
  fun x y =>
    match x, y with
    | .error a, .error b =>
      if h : a = b then .isTrue (by rw [h]) else .isFalse (by simp [h])
    | .ok a, .ok b =>
      if h : a = b then .isTrue (by rw [h]) else .isFalse (by simp [h])
    | .error _, .ok _ => .isFalse (by simp)
    | .ok _, .error _ => .isFalse (by simp)

/-- The part of Go `http.Response` the client reads: `StatusCode` and the
full byte stream of `Body`. -/
structure Response where
  StatusCode : Nat
  Body : String
deriving DecidableEq, Repr

/-- The outbound request handed to the transport: method, the URL built by
`Request`, the body bytes, and the headers copied onto it. -/
structure HttpReq where
  method : String
  url : String
  body : String
  headers : MIMEHeader
deriving DecidableEq, Repr

/-- Observable external calls made during one dispatch: a discovery
resolution (`c.discovery.GetEndpoints`) or a transport execution
(`c.httpClient.Do`). -/
inductive Event where
  | resolve (serviceName : String)
  | doRequest (req : HttpReq)
deriving DecidableEq, Repr

/-- The external collaborators: the discovery backend and the HTTP
transport (including context/timeout behaviour), modelled as functions
producing either an error message or a result. -/
structure World where
  getEndpoints : String → Except String (List Endpoint)
  transport : HttpReq → Except String Response

/-- The client configuration `Request` branches on: whether `tlsConfig`
is non-nil (the other fields — discovery, httpClient, logger — are
modelled by `World` and `RRState`). -/
structure Client where
  tlsConfig : Bool

/-- Go `(*Client).Request` (lines 232-272): resolve endpoints (failure
propagated verbatim), select one by round-robin (`ErrNoAvailableEndpoint`
when none), build the URL `fmt.Sprintf("%s%s:%d%s", prefix,
endpoint.Address, endpoint.Port, path)` with `prefix` `https://` iff
`tlsConfig != nil`, copy all headers onto the request, and execute it
through the transport. The returned event list records the external calls
in order. The `((none, true), _)` arm is unreachable (`ok = true` implies
a selected endpoint, see `getNextEndpoint_ok_some`). -/
def Client.Request (c : Client) (w : World) (st : RRState)
    (serviceName method path : String) (body : String) (headers : MIMEHeader) :
    Except GoErr Response × RRState × List Event :=
  match w.getEndpoints serviceName with
  | .error e => (.error (.discovery e), st, [.resolve serviceName])
  | .ok endpoints =>
    match getNextEndpoint st serviceName endpoints with
    | ((_, false), st2) => (.error .noAvailableEndpoint, st2, [.resolve serviceName])
    | ((none, true), st2) => (.error .noAvailableEndpoint, st2, [.resolve serviceName])
    | ((some endpoint, true), st2) =>
      let scheme := if c.tlsConfig then "https://" else "http://"
      let url := scheme ++ endpoint.Address ++ ":" ++ toString endpoint.Port ++ path
      let req : HttpReq := ⟨method, url, body, headers⟩
      match w.transport req with
      | .error e =>
        (.error (.errorf ("failed to perform HTTP request: " ++ e)), st2,
          [.resolve serviceName, .doRequest req])
      | .ok resp => (.ok resp, st2, [.resolve serviceName, .doRequest req])

/-- Shared body of `JsonRequest` (lines 113-148) and `XmlRequest`
(lines 179-214), which are textually identical up to the media type, the
decoder, and the decode error message. `dec` models the stdlib decoder
(`json.NewDecoder(resp.Body).Decode` / `xml...`): on a body it returns the
number of body bytes it consumed and its result. `hasRespObj` models the
`respObj != nil` check; a `nil` body slice is `none`
(`bytes.NewReader(nil)` reads as empty). The final `Nat` is the number of
body bytes read before `resp.Body.Close()`: the non-2xx branch reads the
whole body (`io.ReadAll`), the 2xx branch reads only what the decoder
consumes, and nothing when `respObj` is nil. -/
def codecRequest (media decodeErrMsg : String) (dec : String → Nat × Except String Unit)
    (c : Client) (w : World) (st : RRState) (serviceName method path : String)
    (body : Option String) (headers : Option MIMEHeader) (hasRespObj : Bool) :
    Except GoErr Unit × RRState × List Event × Nat :=
  let h := applyDefaultHeaders media headers
  match c.Request w st serviceName method path (body.getD "") h with
  | (.error e, st2, evs) => (.error e, st2, evs, 0)
  | (.ok resp, st2, evs) =>
    if 200 ≤ resp.StatusCode ∧ resp.StatusCode < 300 then
      if hasRespObj then
        match dec resp.Body with
        | (n, .error e) => (.error (.errorf (decodeErrMsg ++ e)), st2, evs, n)
        | (n, .ok _) => (.ok (), st2, evs, n)
      else (.ok (), st2, evs, 0)
    else
      (.error (.httpStatus resp.StatusCode resp.Body), st2, evs, resp.Body.length)

/-- Go `(*Client).JsonRequest` (lines 113-148). -/
def Client.JsonRequest (c : Client) (w : World) (st : RRState)
    (serviceName method path : String) (body : Option String)
    (headers : Option MIMEHeader) (dec : String → Nat × Except String Unit)
    (hasRespObj : Bool) : Except GoErr Unit × RRState × List Event × Nat :=
  codecRequest MediaJson "failed to decode JSON response: " dec
    c w st serviceName method path body headers hasRespObj

/-- Go `(*Client).XmlRequest` (lines 179-214). -/
def Client.XmlRequest (c : Client) (w : World) (st : RRState)
    (serviceName method path : String) (body : Option String)
    (headers : Option MIMEHeader) (dec : String → Nat × Except String Unit)
    (hasRespObj : Bool) : Except GoErr Unit × RRState × List Event × Nat :=
  codecRequest MediaXml "failed to decode XML response: " dec
    c w st serviceName method path body headers hasRespObj

/-- Go `(*Client).JsonPost` (lines 90-96): `json.Marshal` of the caller-supplied
request object is external, so its outcome is the `marshalResult`
argument; on failure the wrapped error is returned before anything else
runs. -/
def Client.JsonPost (c : Client) (w : World) (st : RRState)
    (serviceName path : String) (marshalResult : Except String String)
    (headers : Option MIMEHeader) (dec : String → Nat × Except String Unit)
    (hasRespObj : Bool) : Except GoErr Unit × RRState × List Event × Nat :=
  match marshalResult with
  | .error e => (.error (.errorf ("failed to marshal request object: " ++ e)), st, [], 0)
  | .ok body => c.JsonRequest w st serviceName "POST" path (some body) headers dec hasRespObj

/-- Go `(*Client).JsonPut` (lines 99-105). -/
def Client.JsonPut (c : Client) (w : World) (st : RRState)
    (serviceName path : String) (marshalResult : Except String String)
    (headers : Option MIMEHeader) (dec : String → Nat × Except String Unit)
    (hasRespObj : Bool) : Except GoErr Unit × RRState × List Event × Nat :=
  match marshalResult with
  | .error e => (.error (.errorf ("failed to marshal request object: " ++ e)), st, [], 0)
  | .ok body => c.JsonRequest w st serviceName "PUT" path (some body) headers dec hasRespObj

/-- Go `(*Client).XmlPost` (lines 156-162), with `xml.Marshal` external. -/
def Client.XmlPost (c : Client) (w : World) (st : RRState)
    (serviceName path : String) (marshalResult : Except String String)
    (headers : Option MIMEHeader) (dec : String → Nat × Except String Unit)
    (hasRespObj : Bool) : Except GoErr Unit × RRState × List Event × Nat :=
  match marshalResult with
  | .error e => (.error (.errorf ("failed to marshal request object: " ++ e)), st, [], 0)
  | .ok body => c.XmlRequest w st serviceName "POST" path (some body) headers dec hasRespObj

/-- Go `(*Client).XmlPut` (lines 165-171). -/
def Client.XmlPut (c : Client) (w : World) (st : RRState)
    (serviceName path : String) (marshalResult : Except String String)
    (headers : Option MIMEHeader) (dec : String → Nat × Except String Unit)
    (hasRespObj : Bool) : Except GoErr Unit × RRState × List Event × Nat :=
  match marshalResult with
  | .error e => (.error (.errorf ("failed to marshal request object: " ++ e)), st, [], 0)
  | .ok body => c.XmlRequest w st serviceName "PUT" path (some body) headers dec hasRespObj

/-- The rotation state after `n` successive `getNextEndpoint` calls for
one service against one endpoint list. -/
def selectSteps (st : RRState) (s : String) (eps : List Endpoint) : Nat → RRState
  | 0 => st
  | n + 1 => (getNextEndpoint (selectSteps st s eps n) s eps).2

/-- Three distinct endpoints, used as a concrete endpoint list. -/
def eps3 : List Endpoint := [⟨"a", 1⟩, ⟨"b", 2⟩, ⟨"c", 3⟩]

/-- A world whose directory always resolves to one endpoint and whose
transport always answers 404 with body "not found". -/
def w404 : World := ⟨fun _ => .ok [⟨"h", 1⟩], fun _ => .ok ⟨404, "not found"⟩⟩

/-- A world whose directory always resolves to one endpoint and whose
transport always answers 204 with a 3-byte body. -/
def w204 : World := ⟨fun _ => .ok [⟨"h", 1⟩], fun _ => .ok ⟨204, "abc"⟩⟩

/-- A world whose directory always resolves to the empty endpoint list. -/
def wEmpty : World := ⟨fun _ => .ok [], fun _ => .ok ⟨200, ""⟩⟩

/-- A world whose directory always resolves to `eps3` and whose transport
always answers 200. -/
def wOk : World := ⟨fun _ => .ok eps3, fun _ => .ok ⟨200, "ok"⟩⟩

/-- A concrete stand-in decoder: consumes the whole body and succeeds. -/
def jdec : String → Nat × Except String Unit := fun s => (s.length, .ok ())

theorem assocLookup_assocSet_self {β : Type} (l : List (String × β)) (k : String) (v : β) :
    assocLookup (assocSet l k v) k = some v := by
  induction l with
  | nil => simp [assocSet, assocLookup]
  | cons hd t ih =>
    obtain ⟨k2, v2⟩ := hd
    by_cases hk : k2 = k
    · simp [assocSet, hk, assocLookup]
    · simp [assocSet, hk, assocLookup, ih]

theorem assocLookup_assocSet_ne {β : Type} (l : List (String × β)) (k k2 : String) (v : β)
    (h : k ≠ k2) : assocLookup (assocSet l k v) k2 = assocLookup l k2 := by
  induction l with
  | nil => simp [assocSet, assocLookup, h]
  | cons hd t ih =>
    obtain ⟨k3, v3⟩ := hd
    by_cases hk : k3 = k
    · subst hk; simp [assocSet, assocLookup, h]
    · simp [assocSet, hk, assocLookup, ih]

theorem u32_sub_one_mod (m : Nat) : ((m + 1) % U32 + U32 - 1) % U32 = m % U32 := by
  unfold U32
  omega

/-- Closed form of one `getNextEndpoint` call on a non-empty list whose
length fits in `uint32`. -/
theorem getNextEndpoint_nonempty (st : RRState) (s : String) (eps : List Endpoint)
    (h1 : eps.length ≠ 0) (h2 : eps.length < U32) :
    getNextEndpoint st s eps =
      ((eps[((assocLookup st s).getD 0 % U32) % eps.length]?, true),
        assocSet st s (((assocLookup st s).getD 0 + 1) % U32)) := by
  have hlen : eps.length % U32 = eps.length := Nat.mod_eq_of_lt h2
  simp only [getNextEndpoint, if_neg h1, hlen, u32_sub_one_mod]

/-- On a non-empty list the selected index is in range, so `ok = true`
comes with an actual endpoint. -/
theorem getNextEndpoint_ok_some (eps : List Endpoint) (h1 : eps.length ≠ 0) (i : Nat) :
    ∃ e, eps[i % eps.length]? = some e := by
  have hlt : i % eps.length < eps.length := Nat.mod_lt _ (Nat.pos_of_ne_zero h1)
  exact ⟨eps[i % eps.length], List.getElem?_eq_getElem hlt⟩

/-- For a service the rotation state has never seen, the counter after `n`
selections against a fixed non-empty list is `n % 2 ^ 32`. -/
theorem selectSteps_lookup_fresh (st : RRState) (s : String) (eps : List Endpoint)
    (hfresh : assocLookup st s = none) (h1 : eps.length ≠ 0) (h2 : eps.length < U32) :
    ∀ n, assocLookup (selectSteps st s eps n) s = if n = 0 then none else some (n % U32) := by
  intro n
  induction n with
  | zero => simpa [selectSteps]
  | succ n ih =>
    have step := getNextEndpoint_nonempty (selectSteps st s eps n) s eps h1 h2
    simp only [selectSteps, step]
    rcases Nat.eq_zero_or_pos n with hn | hn
    · subst hn
      simp only [ih, if_pos rfl, Option.getD_none, assocLookup_assocSet_self]
      norm_num
    · have hne : n ≠ 0 := by omega
      simp only [ih, if_neg hne, Option.getD_some, assocLookup_assocSet_self,
        Nat.succ_ne_zero, if_false]
      congr 1
      unfold U32
      omega

/-- The k-th selection (1-indexed) for a previously unseen service against
a fixed non-empty list of length `< 2 ^ 32` returns the endpoint at index
`((k - 1) % 2 ^ 32) % length`. -/
theorem nthSelect_fresh (st : RRState) (s : String) (eps : List Endpoint)
    (hfresh : assocLookup st s = none) (h1 : eps.length ≠ 0) (h2 : eps.length < U32)
    (k : Nat) (_hk : 1 ≤ k) :
    (getNextEndpoint (selectSteps st s eps (k - 1)) s eps).1.1 =
      eps[((k - 1) % U32) % eps.length]? := by
  have hlook := selectSteps_lookup_fresh st s eps hfresh h1 h2 (k - 1)
  rw [getNextEndpoint_nonempty _ s eps h1 h2, hlook]
  rcases Nat.eq_zero_or_pos (k - 1) with hkz | hkz
  · simp [hkz]
  · have hne : k - 1 ≠ 0 := by omega
    simp only [if_neg hne, Option.getD_some]
    congr 2
    unfold U32
    omega

/-- C1 (counterexample): the claim "for every k ≥ 1 the k-th selection
returns the endpoint at index (k - 1) mod N" is false as stated: for a
fresh service and the 3-endpoint list `eps3`, at `k = 2 ^ 32 + 1` the
counter has wrapped, the code returns the endpoint at index 0, but
`(k - 1) mod 3 = 1`. -/
theorem C1_counterexample :
    ¬ (∀ k, 1 ≤ k →
        (getNextEndpoint (selectSteps [] "svc" eps3 (k - 1)) "svc" eps3).1.1 =
          eps3[(k - 1) % eps3.length]?) := by
  intro hcl
  have hcl1 := hcl (U32 + 1) (by omega)
  have hval := nthSelect_fresh [] "svc" eps3 rfl (by decide) (by decide) (U32 + 1) (by omega)
  rw [hval] at hcl1
  revert hcl1
  decide

/-- C1 (amended): for a service name never before seen and a fixed
non-empty endpoint list of length N < 2 ^ 32, the k-th selection
(1-indexed) returns the endpoint at index ((k - 1) mod 2 ^ 32) mod N; in
particular the first selection returns index 0, and for k ≤ 2 ^ 32 the
index is (k - 1) mod N. -/
theorem C1_round_robin_kth (st : RRState) (s : String) (eps : List Endpoint) (k : Nat)
    (hfresh : assocLookup st s = none) (h1 : eps.length ≠ 0) (h2 : eps.length < U32)
    (hk : 1 ≤ k) :
    (getNextEndpoint (selectSteps st s eps (k - 1)) s eps).1.1 =
      eps[((k - 1) % U32) % eps.length]? :=
  nthSelect_fresh st s eps hfresh h1 h2 k hk

/-- Witness for C1: the 5th selection for a fresh service against the
3-endpoint list `eps3` is the endpoint at index (5 - 1) mod 3 = 1. -/
theorem C1_round_robin_kth_witness :
    assocLookup ([] : RRState) "svc" = none ∧ 1 ≤ 5 ∧
    (getNextEndpoint (selectSteps [] "svc" eps3 (5 - 1)) "svc" eps3).1.1 =
      eps3[((5 - 1) % U32) % eps3.length]? ∧
    eps3[((5 - 1) % U32) % eps3.length]? = some ⟨"b", 2⟩ :=
  ⟨rfl, by omega,
    C1_round_robin_kth [] "svc" eps3 5 rfl (by decide) (by decide) (by omega),
    by decide⟩

/-- C8: each per-service counter is incremented by exactly one modulo
2 ^ 32 on every selection for that service (created at zero when absent),
counters of other services are untouched, a counter at 2 ^ 32 - 1 wraps to
0, and the endpoint returned is the one at index
(counterAfterIncrement - 1) mod N computed in wrapping uint32 arithmetic. -/
theorem C8_counter_increment_wrap (st : RRState) (s : String) (eps : List Endpoint)
    (h1 : eps.length ≠ 0) (h2 : eps.length < U32) :
    ∃ e, getNextEndpoint st s eps =
        ((some e, true), assocSet st s (((assocLookup st s).getD 0 + 1) % U32)) ∧
      eps[((((assocLookup st s).getD 0 + 1) % U32 + U32 - 1) % U32) % eps.length]? = some e ∧
      assocLookup (getNextEndpoint st s eps).2 s =
        some (((assocLookup st s).getD 0 + 1) % U32) ∧
      (∀ s2, s2 ≠ s → assocLookup (getNextEndpoint st s eps).2 s2 = assocLookup st s2) ∧
      ((assocLookup st s).getD 0 = U32 - 1 → ((assocLookup st s).getD 0 + 1) % U32 = 0) := by
  have hstep := getNextEndpoint_nonempty st s eps h1 h2
  obtain ⟨e, he⟩ := getNextEndpoint_ok_some eps h1 ((assocLookup st s).getD 0 % U32)
  refine ⟨e, ?_, ?_, ?_, ?_, ?_⟩
  · rw [hstep, he]
  · rw [u32_sub_one_mod]
    exact he
  · rw [hstep]
    exact assocLookup_assocSet_self st s _
  · intro s2 hs2
    rw [hstep]
    exact assocLookup_assocSet_ne st s s2 _ (fun h => hs2 h.symm)
  · intro hmax
    rw [hmax]
    unfold U32
    omega

/-- Witness for C8: one selection for service "svc" whose counter sits at
2 ^ 32 - 1 against `eps3`: the counter wraps to 0 and the returned
endpoint is the one at wrapped index (0 - 1) mod 2 ^ 32 mod 3. -/
theorem C8_counter_increment_wrap_witness :
    ∃ e, getNextEndpoint [("svc", U32 - 1)] "svc" eps3 =
        ((some e, true),
          assocSet [("svc", U32 - 1)] "svc"
            (((assocLookup [("svc", U32 - 1)] "svc").getD 0 + 1) % U32)) ∧
      eps3[((((assocLookup [("svc", U32 - 1)] "svc").getD 0 + 1) % U32 + U32 - 1) % U32) %
          eps3.length]? = some e ∧
      assocLookup (getNextEndpoint [("svc", U32 - 1)] "svc" eps3).2 "svc" =
        some (((assocLookup [("svc", U32 - 1)] "svc").getD 0 + 1) % U32) ∧
      (∀ s2, s2 ≠ "svc" →
        assocLookup (getNextEndpoint [("svc", U32 - 1)] "svc" eps3).2 s2 =
          assocLookup [("svc", U32 - 1)] s2) ∧
      ((assocLookup [("svc", U32 - 1)] "svc").getD 0 = U32 - 1 →
        ((assocLookup [("svc", U32 - 1)] "svc").getD 0 + 1) % U32 = 0) :=
  C8_counter_increment_wrap [("svc", U32 - 1)] "svc" eps3 (by decide) (by decide)

/-- C2: selecting against an empty endpoint list reports not-ok with no
endpoint and leaves the state unchanged, `Request` then fails with the
dedicated `ErrNoAvailableEndpoint` sentinel, and that sentinel is distinct
from every directory/resolution failure and every wrapped transport
error. -/
theorem C2_empty_list_no_endpoint (c : Client) (w : World) (st : RRState)
    (s method path body : String) (headers : MIMEHeader)
    (h : w.getEndpoints s = .ok []) :
    getNextEndpoint st s [] = ((none, false), st) ∧
    c.Request w st s method path body headers =
      (.error .noAvailableEndpoint, st, [.resolve s]) ∧
    (∀ msg, (GoErr.noAvailableEndpoint : GoErr) ≠ .discovery msg) ∧
    (∀ msg, (GoErr.noAvailableEndpoint : GoErr) ≠ .errorf msg) := by
  refine ⟨rfl, ?_, fun msg => by simp, fun msg => by simp⟩
  unfold Client.Request
  rw [h]
  rfl

/-- Witness for C2: a client in a world whose directory resolves "svc" to
the empty list. -/
theorem C2_empty_list_no_endpoint_witness :
    getNextEndpoint [] "svc" [] = ((none, false), []) ∧
    Client.Request ⟨false⟩ wEmpty [] "svc" "GET" "/p" "" [] =
      (.error .noAvailableEndpoint, [], [.resolve "svc"]) ∧
    (∀ msg, (GoErr.noAvailableEndpoint : GoErr) ≠ .discovery msg) ∧
    (∀ msg, (GoErr.noAvailableEndpoint : GoErr) ≠ .errorf msg) :=
  C2_empty_list_no_endpoint ⟨false⟩ wEmpty [] "svc" "GET" "/p" "" [] rfl

/-- C7: whenever `Request` selects an endpoint, the request handed to the
transport has URL equal to the scheme ("https://" exactly when the
TLS configuration of the client is non-nil, else "http://") followed by the
address of the selected endpoint, ":", its port, and the caller path appended
verbatim. -/
theorem C7_url_scheme_host_path (c : Client) (w : World) (st : RRState)
    (s method path body : String) (headers : MIMEHeader) (eps : List Endpoint)
    (hres : w.getEndpoints s = .ok eps) (h1 : eps.length ≠ 0) (h2 : eps.length < U32) :
    ∃ ep, (getNextEndpoint st s eps).1.1 = some ep ∧
      (c.Request w st s method path body headers).2.2 =
        [.resolve s, .doRequest ⟨method,
          (if c.tlsConfig then "https://" else "http://") ++ ep.Address ++ ":" ++
            toString ep.Port ++ path, body, headers⟩] := by
  have hstep := getNextEndpoint_nonempty st s eps h1 h2
  obtain ⟨ep, hep⟩ := getNextEndpoint_ok_some eps h1 ((assocLookup st s).getD 0 % U32)
  refine ⟨ep, by rw [hstep, hep], ?_⟩
  unfold Client.Request
  rw [hres]
  dsimp only
  rw [hstep, hep]
  dsimp only
  split <;> rfl

/-- Witness for C7: a TLS-configured client dispatching against `eps3`. -/
theorem C7_url_scheme_host_path_witness :
    ∃ ep, (getNextEndpoint [] "svc" eps3).1.1 = some ep ∧
      (Client.Request ⟨true⟩ wOk [] "svc" "GET" "/p" "" []).2.2 =
        [.resolve "svc", .doRequest ⟨"GET",
          (if (Client.mk true).tlsConfig then "https://" else "http://") ++ ep.Address ++
            ":" ++ toString ep.Port ++ "/p", "", []⟩] :=
  C7_url_scheme_host_path ⟨true⟩ wOk [] "svc" "GET" "/p" "" [] eps3 rfl (by decide) (by decide)

theorem canonKey_Accept : canonicalMIMEHeaderKey HeaderAccept = "Accept" := by decide

theorem canonKey_ContentType :
    canonicalMIMEHeaderKey HeaderContentType = "Content-Type" := by decide

theorem mimeGet_mimeSet_same (h : MIMEHeader) (k v : String) :
    mimeGet (mimeSet h k v) k = v := by
  unfold mimeGet mimeSet
  rw [assocLookup_assocSet_self]

theorem mimeGet_mimeSet_other (h : MIMEHeader) (k k2 v : String)
    (hne : canonicalMIMEHeaderKey k ≠ canonicalMIMEHeaderKey k2) :
    mimeGet (mimeSet h k v) k2 = mimeGet h k2 := by
  unfold mimeGet mimeSet
  rw [assocLookup_assocSet_ne _ _ _ _ hne]

/-- What `Get` observes on `Accept` and `Content-Type` after the codec
header defaulting: the media type exactly when the caller map yielded
`""`, the caller value otherwise. -/
theorem applyDefault_get (media : String) (h : MIMEHeader) :
    mimeGet (applyDefaultHeaders media (some h)) HeaderAccept =
      (if mimeGet h HeaderAccept = "" then media else mimeGet h HeaderAccept) ∧
    mimeGet (applyDefaultHeaders media (some h)) HeaderContentType =
      (if mimeGet h HeaderContentType = "" then media else mimeGet h HeaderContentType) := by
  have hAC : canonicalMIMEHeaderKey HeaderAccept ≠ canonicalMIMEHeaderKey HeaderContentType := by
    decide
  have hCA : canonicalMIMEHeaderKey HeaderContentType ≠ canonicalMIMEHeaderKey HeaderAccept := by
    decide
  unfold applyDefaultHeaders
  simp only [Option.getD_some]
  by_cases ha : mimeGet h HeaderAccept = ""
  · rw [if_pos ha]
    have hct1 : mimeGet (mimeSet h HeaderAccept media) HeaderContentType =
        mimeGet h HeaderContentType := mimeGet_mimeSet_other h _ _ media hAC
    rw [hct1]
    by_cases hc : mimeGet h HeaderContentType = ""
    · rw [if_pos hc, if_pos ha, if_pos hc,
        mimeGet_mimeSet_other _ _ _ media hCA, mimeGet_mimeSet_same,
        mimeGet_mimeSet_same]
      exact ⟨rfl, rfl⟩
    · rw [if_neg hc, if_pos ha, if_neg hc, mimeGet_mimeSet_same, hct1]
      exact ⟨rfl, rfl⟩
  · rw [if_neg ha]
    by_cases hc : mimeGet h HeaderContentType = ""
    · rw [if_pos hc, if_neg ha, if_pos hc,
        mimeGet_mimeSet_other _ _ _ media hCA, mimeGet_mimeSet_same]
      exact ⟨rfl, rfl⟩
    · rw [if_neg hc, if_neg ha, if_neg hc]
      exact ⟨rfl, rfl⟩

/-- C4 (counterexample): the claim "a caller-supplied value for either
header is preserved verbatim and never overridden" is false as stated: a
caller-supplied `Content-Type` entry whose value is the empty string (set
via `headers.Set(HeaderContentType, "")`) is overridden by the XML codec
default, because the code tests `headers.Get(...) == ""`, which cannot
distinguish an absent header from one set to the empty string. -/
theorem C4_counterexample :
    assocLookup ([("Content-Type", [""])] : MIMEHeader) "Content-Type" = some [""] ∧
    mimeGet (applyDefaultHeaders MediaXml (some [("Content-Type", [""])]))
      HeaderContentType = MediaXml ∧
    MediaXml ≠ "" := by
  refine ⟨rfl, by decide, by decide⟩

/-- C4 (amended): `Accept` and `Content-Type` are set to the codec media
type exactly when the caller map makes `Get` return `""` — that is, when
the header is absent or its first value is the empty string; any
caller-supplied value with a non-empty first value (for either header, on
either codec path) is preserved verbatim. -/
theorem C4_header_defaulting (media : String) (h : MIMEHeader) :
    mimeGet (applyDefaultHeaders media (some h)) HeaderAccept =
      (if mimeGet h HeaderAccept = "" then media else mimeGet h HeaderAccept) ∧
    mimeGet (applyDefaultHeaders media (some h)) HeaderContentType =
      (if mimeGet h HeaderContentType = "" then media else mimeGet h HeaderContentType) :=
  applyDefault_get media h

/-- C9: the codec header defaulting acts on the very map of the caller: entries
under any key other than the two canonical keys "Accept" and
"Content-Type" are left unchanged, and when `Accept` (or `Content-Type`)
is unset and the media type is non-empty the resulting map differs from
the one the caller passed in. -/
theorem C9_headers_mutated_in_place (media : String) (h : MIMEHeader) (k : String) :
    (k ≠ "Accept" → k ≠ "Content-Type" →
      assocLookup (applyDefaultHeaders media (some h)) k = assocLookup h k) ∧
    (mimeGet h HeaderAccept = "" → media ≠ "" →
      applyDefaultHeaders media (some h) ≠ h) ∧
    (mimeGet h HeaderContentType = "" → media ≠ "" →
      applyDefaultHeaders media (some h) ≠ h) := by
  refine ⟨?_, ?_, ?_⟩
  · intro hkA hkC
    have hA : ∀ l : MIMEHeader, assocLookup (mimeSet l HeaderAccept media) k = assocLookup l k := by
      intro l
      unfold mimeSet
      rw [canonKey_Accept]
      exact assocLookup_assocSet_ne l "Accept" k [media] (fun he => hkA he.symm)
    have hC : ∀ l : MIMEHeader,
        assocLookup (mimeSet l HeaderContentType media) k = assocLookup l k := by
      intro l
      unfold mimeSet
      rw [canonKey_ContentType]
      exact assocLookup_assocSet_ne l "Content-Type" k [media] (fun he => hkC he.symm)
    unfold applyDefaultHeaders
    simp only [Option.getD_some]
    by_cases ha : mimeGet h HeaderAccept = ""
    · rw [if_pos ha]
      by_cases hc : mimeGet (mimeSet h HeaderAccept media) HeaderContentType = ""
      · rw [if_pos hc, hC, hA]
      · rw [if_neg hc, hA]
    · rw [if_neg ha]
      by_cases hc : mimeGet h HeaderContentType = ""
      · rw [if_pos hc, hC]
      · rw [if_neg hc]
  · intro ha hmedia heq
    have h1 := (applyDefault_get media h).1
    rw [heq, ha] at h1
    simp only [if_pos rfl] at h1
    exact hmedia h1.symm
  · intro hc hmedia heq
    have h1 := (applyDefault_get media h).2
    rw [heq, hc] at h1
    simp only [if_pos rfl] at h1
    exact hmedia h1.symm

/-- Witness for C9: a caller map holding only an "X-Trace" entry: that
entry is untouched while the map as a whole changes. -/
theorem C9_headers_mutated_in_place_witness :
    assocLookup (applyDefaultHeaders MediaJson (some [("X-Trace", ["t"])])) "X-Trace" =
      assocLookup ([("X-Trace", ["t"])] : MIMEHeader) "X-Trace" ∧
    applyDefaultHeaders MediaJson (some [("X-Trace", ["t"])]) ≠ [("X-Trace", ["t"])] :=
  ⟨(C9_headers_mutated_in_place MediaJson [("X-Trace", ["t"])] "X-Trace").1
      (by decide) (by decide),
   (C9_headers_mutated_in_place MediaJson [("X-Trace", ["t"])] "X-Trace").2.1
      (by decide) (by decide)⟩

/-- C10: a nil headers argument does not change behaviour: `JsonRequest`
and `XmlRequest` with `nil` headers run exactly as with an empty non-nil
map, and the codec defaults are applied to the fresh map. (The model is
total, so no panic arises.) -/
theorem C10_nil_headers (c : Client) (w : World) (st : RRState)
    (s method path : String) (body : Option String)
    (dec : String → Nat × Except String Unit) (hasRespObj : Bool) :
    c.JsonRequest w st s method path body none dec hasRespObj =
      c.JsonRequest w st s method path body (some []) dec hasRespObj ∧
    c.XmlRequest w st s method path body none dec hasRespObj =
      c.XmlRequest w st s method path body (some []) dec hasRespObj ∧
    mimeGet (applyDefaultHeaders MediaJson none) HeaderAccept = MediaJson ∧
    mimeGet (applyDefaultHeaders MediaJson none) HeaderContentType = MediaJson ∧
    mimeGet (applyDefaultHeaders MediaXml none) HeaderAccept = MediaXml ∧
    mimeGet (applyDefaultHeaders MediaXml none) HeaderContentType = MediaXml :=
  ⟨rfl, rfl, by decide, by decide, by decide, by decide⟩

/-- C3: on any `JsonRequest` or `XmlRequest` whose response status lies
outside [200,300), the call fails with a status error carrying exactly the
numeric status code and the raw body text, reads the whole body, and the
result does not depend on the decoder (the body is never interpreted as
structured data on this path). -/
theorem C3_status_error_raw_body (c : Client) (w : World) (st : RRState)
    (s method path : String) (body : Option String) (headers : Option MIMEHeader)
    (dec : String → Nat × Except String Unit) (hasRespObj : Bool)
    (resp respx : Response) (st2 st3 : RRState) (evs evsx : List Event)
    (hj : c.Request w st s method path (body.getD "")
        (applyDefaultHeaders MediaJson headers) = (.ok resp, st2, evs))
    (hjs : ¬ (200 ≤ resp.StatusCode ∧ resp.StatusCode < 300))
    (hx : c.Request w st s method path (body.getD "")
        (applyDefaultHeaders MediaXml headers) = (.ok respx, st3, evsx))
    (hxs : ¬ (200 ≤ respx.StatusCode ∧ respx.StatusCode < 300)) :
    c.JsonRequest w st s method path body headers dec hasRespObj =
      (.error (.httpStatus resp.StatusCode resp.Body), st2, evs, resp.Body.length) ∧
    c.XmlRequest w st s method path body headers dec hasRespObj =
      (.error (.httpStatus respx.StatusCode respx.Body), st3, evsx, respx.Body.length) := by
  constructor
  · unfold Client.JsonRequest codecRequest
    dsimp only
    rw [hj]
    dsimp only
    rw [if_neg hjs]
  · unfold Client.XmlRequest codecRequest
    dsimp only
    rw [hx]
    dsimp only
    rw [if_neg hxs]

/-- Witness for C3: a 404 response with body "not found" yields a status
error with code 404 and text "not found" on both codec paths. -/
theorem C3_status_error_raw_body_witness :
    Client.JsonRequest ⟨false⟩ w404 [] "svc" "GET" "/p" none none jdec false =
      (.error (.httpStatus 404 "not found"), [("svc", 1)],
        [.resolve "svc", .doRequest ⟨"GET", "http://h:1/p", "",
          applyDefaultHeaders MediaJson none⟩], ("not found").length) ∧
    Client.XmlRequest ⟨false⟩ w404 [] "svc" "GET" "/p" none none jdec false =
      (.error (.httpStatus 404 "not found"), [("svc", 1)],
        [.resolve "svc", .doRequest ⟨"GET", "http://h:1/p", "",
          applyDefaultHeaders MediaXml none⟩], ("not found").length) :=
  C3_status_error_raw_body ⟨false⟩ w404 [] "svc" "GET" "/p" none none jdec false
    ⟨404, "not found"⟩ ⟨404, "not found"⟩ [("svc", 1)] [("svc", 1)]
    [.resolve "svc", .doRequest ⟨"GET", "http://h:1/p", "",
      applyDefaultHeaders MediaJson none⟩]
    [.resolve "svc", .doRequest ⟨"GET", "http://h:1/p", "",
      applyDefaultHeaders MediaXml none⟩]
    (by decide) (by decide) (by decide) (by decide)

/-- C5 (counterexample): the claim "the raw response body is fully drained
before the call returns, in every branch" is false as stated: on a 2xx
response with no output target (`respObj` nil) the code closes the body
without reading it — here a 204 response with a 3-byte body completes with
0 bytes read. -/
theorem C5_counterexample :
    Client.JsonRequest ⟨false⟩ w204 [] "svc" "GET" "/p" none none jdec false =
      (.ok (), [("svc", 1)],
        [.resolve "svc", .doRequest ⟨"GET", "http://h:1/p", "",
          [("Accept", [MediaJson]), ("Content-Type", [MediaJson])]⟩], 0) ∧
    w204.transport ⟨"GET", "http://h:1/p", "",
        [("Accept", [MediaJson]), ("Content-Type", [MediaJson])]⟩ = .ok ⟨204, "abc"⟩ ∧
    ("abc").length = 3 ∧ (3 : Nat) ≠ 0 := by decide

/-- C5 (amended): the body is fully read before returning exactly on the
non-2xx branch; on a 2xx response the call reads only what the decoder
consumes — nothing at all when there is no output target — and then closes
the body. -/
theorem C5_body_drain_per_branch (media msg : String)
    (dec : String → Nat × Except String Unit) (c : Client) (w : World) (st : RRState)
    (s method path : String) (body : Option String) (headers : Option MIMEHeader)
    (resp : Response) (st2 : RRState) (evs : List Event)
    (hreq : c.Request w st s method path (body.getD "")
        (applyDefaultHeaders media headers) = (.ok resp, st2, evs)) :
    (¬ (200 ≤ resp.StatusCode ∧ resp.StatusCode < 300) →
      (codecRequest media msg dec c w st s method path body headers true).2.2.2 =
        resp.Body.length ∧
      (codecRequest media msg dec c w st s method path body headers false).2.2.2 =
        resp.Body.length) ∧
    ((200 ≤ resp.StatusCode ∧ resp.StatusCode < 300) →
      (codecRequest media msg dec c w st s method path body headers false).2.2.2 = 0 ∧
      (codecRequest media msg dec c w st s method path body headers true).2.2.2 =
        (dec resp.Body).1) := by
  constructor
  · intro hstatus
    constructor
    · unfold codecRequest
      dsimp only
      rw [hreq]
      dsimp only
      rw [if_neg hstatus]
    · unfold codecRequest
      dsimp only
      rw [hreq]
      dsimp only
      rw [if_neg hstatus]
  · intro hstatus
    constructor
    · unfold codecRequest
      dsimp only
      rw [hreq]
      dsimp only
      rw [if_pos hstatus]
      rfl
    · unfold codecRequest
      dsimp only
      rw [hreq]
      dsimp only
      rw [if_pos hstatus]
      rcases hdec : dec resp.Body with ⟨n, r⟩
      cases r <;> rfl

/-- Witness for C5: with no output target a 204 response with a 3-byte
body is not read at all; on the non-2xx path the whole 9-byte body is
read. -/
theorem C5_body_drain_per_branch_witness :
    (codecRequest MediaJson "failed to decode JSON response: " jdec ⟨false⟩ w204 []
        "svc" "GET" "/p" none none false).2.2.2 = 0 ∧
    (codecRequest MediaJson "failed to decode JSON response: " jdec ⟨false⟩ w404 []
        "svc" "GET" "/p" none none true).2.2.2 = ("not found").length :=
  ⟨((C5_body_drain_per_branch MediaJson "failed to decode JSON response: " jdec ⟨false⟩
      w204 [] "svc" "GET" "/p" none none ⟨204, "abc"⟩ [("svc", 1)]
      [.resolve "svc", .doRequest ⟨"GET", "http://h:1/p", "",
        applyDefaultHeaders MediaJson none⟩] (by decide)).2 (by decide)).1,
   ((C5_body_drain_per_branch MediaJson "failed to decode JSON response: " jdec ⟨false⟩
      w404 [] "svc" "GET" "/p" none none ⟨404, "not found"⟩ [("svc", 1)]
      [.resolve "svc", .doRequest ⟨"GET", "http://h:1/p", "",
        applyDefaultHeaders MediaJson none⟩] (by decide)).1 (by decide)).1⟩

/-- C6: when the request body fails to serialize, each of
`JsonPost`/`JsonPut`/`XmlPost`/`XmlPut` returns the encode error
immediately: the rotation state is unchanged and no external call — no
directory resolution, no selection, no transport execution — takes place
(the event list is empty). -/
theorem C6_encode_error_no_network (c : Client) (w : World) (st : RRState)
    (s path e : String) (headers : Option MIMEHeader)
    (dec : String → Nat × Except String Unit) (hasRespObj : Bool) :
    c.JsonPost w st s path (.error e) headers dec hasRespObj =
      (.error (.errorf ("failed to marshal request object: " ++ e)), st, [], 0) ∧
    c.JsonPut w st s path (.error e) headers dec hasRespObj =
      (.error (.errorf ("failed to marshal request object: " ++ e)), st, [], 0) ∧
    c.XmlPost w st s path (.error e) headers dec hasRespObj =
      (.error (.errorf ("failed to marshal request object: " ++ e)), st, [], 0) ∧
    c.XmlPut w st s path (.error e) headers dec hasRespObj =
      (.error (.errorf ("failed to marshal request object: " ++ e)), st, [], 0) :=
  ⟨rfl, rfl, rfl, rfl⟩

end SpringCloud
